import Mathlib

/-!
Shallow embedding of the cosmos-auth Cloudflare worker
(`src/auth.ts`, `src/index.ts`, `src/routes/nonce.ts`, `src/routes/ping.ts`,
`src/types.ts`).  Request bodies are JSON values; the KV store is a partial
map from string keys to string values; the crypto primitives that live in
the repository's `./crypto` module (absent from the sources) and the
`@cosmjs/amino` serialization are oracle parameters, with `Option` results
modelling functions that may throw.
-/

/-- JSON values as produced by `request.json()`.  Numbers are modelled as
exact integers (every nonce the worker ever stores or compares is an
integer; float-specific behaviour is outside the model).  Object fields keep
insertion order, as JavaScript objects do, and are assumed duplicate-free,
as `JSON.parse` output is. -/
inductive Json where
  | null : Json
  | bool (b : Bool) : Json
  | num (n : Int) : Json
  | str (s : String) : Json
  | arr (elems : List Json) : Json
  | obj (fields : List (String × Json)) : Json

namespace Json

/-- Property lookup on a JSON object: `none` models JavaScript `undefined`
(key absent or receiver not an object). -/
def get : Json → String → Option Json
  | .obj fields, key =>
    match fields.find? (fun f => f.1 = key) with
    | some f => some f.2
    | none => none
  | _, _ => none

/-- Whether the value is a JSON number. -/
def isNum : Json → Bool
  | .num _ => true
  | _ => false

end Json

/-- Decimal digits, most significant first, by structural recursion on a
fuel bound so that concrete values reduce inside the kernel. -/
def natDigitsGo (fuel : Nat) (n : Nat) : List Nat :=
  match fuel with
  | 0 => []
  | fuel + 1 => if n < 10 then [n] else natDigitsGo fuel (n / 10) ++ [n % 10]

/-- Decimal digits of a natural number, most significant first
(`natDigitsN 125 = [1, 2, 5]`). -/
def natDigitsN (n : Nat) : List Nat := natDigitsGo (n + 1) n

/-- The character for a decimal digit. -/
def digitChar (d : Nat) : Char := Char.ofNat (48 + d)

/-- Decimal string of a natural number, as JavaScript
`Number.prototype.toString` renders a non-negative integer. -/
def natToDecimal (n : Nat) : String := ⟨(natDigitsN n).map digitChar⟩

/-- JavaScript `Number.prototype.toString` on an integer-valued number
(the only numbers the worker converts: `nonce.toString()` in `setNonce`). -/
def jsNumToString (i : Int) : String :=
  if i < 0 then "-" ++ natToDecimal i.natAbs else natToDecimal i.natAbs

/-- Whitespace skipped by JavaScript `parseInt` (ASCII subset). -/
def isJsWhitespace (c : Char) : Bool :=
  c = ' ' || c = '\t' || c = '\n' || c = '\r' || c = '\x0b' || c = '\x0c'

/-- Value of a digit character under the given radix, `none` if the
character is not a digit of that radix (radices 10 and 16 are the only ones
ECMAScript `parseInt` uses when called with no radix argument). -/
def digitValue? (radix : Nat) (c : Char) : Option Nat :=
  let v :=
    if '0' ≤ c ∧ c ≤ '9' then some (c.toNat - 48)
    else if 'a' ≤ c ∧ c ≤ 'f' then some (c.toNat - 87)
    else if 'A' ≤ c ∧ c ≤ 'F' then some (c.toNat - 55)
    else none
  match v with
  | some d => if d < radix then some d else none
  | none => none

/-- Horner evaluation of a digit list. -/
def digitsVal (radix : Nat) (ds : List Nat) : Nat :=
  ds.foldl (fun a d => a * radix + d) 0

/-- Longest digit prefix of a character list under the given radix, as digit
values. -/
def takeDigits (radix : Nat) (cs : List Char) : List Nat :=
  (cs.takeWhile (fun c => (digitValue? radix c).isSome)).filterMap
    (digitValue? radix)

/-- The optional sign of an ECMAScript `parseInt` argument: strip a leading
`-` or `+`, returning whether the number is negated. -/
def stripSign (cs : List Char) : Bool × List Char :=
  match cs with
  | c :: rest =>
    if c = '-' then (true, rest)
    else if c = '+' then (false, rest)
    else (false, cs)
  | [] => (false, cs)

/-- The radix auto-detection of ECMAScript `parseInt` with no radix
argument: a leading `0x`/`0X` selects radix 16 and is stripped, anything
else selects radix 10. -/
def stripHexMark (cs : List Char) : Nat × List Char :=
  match cs with
  | c0 :: c1 :: rest =>
    if c0 = '0' ∧ (c1 = 'x' ∨ c1 = 'X') then (16, rest) else (10, cs)
  | _ => (10, cs)

/-- ECMAScript `parseInt(string)` with no radix argument, on the character
list of the string: skip leading whitespace, read an optional sign, use
radix 16 when the rest starts with `0x`/`0X` and radix 10 otherwise, and
evaluate the longest digit prefix; `none` models `NaN` (no digits). -/
def parseIntCore (cs : List Char) : Option Int :=
  let ws := cs.dropWhile isJsWhitespace
  let signed := stripSign ws
  let marked := stripHexMark signed.2
  match takeDigits marked.1 marked.2 with
  | [] => none
  | ds =>
    some (if signed.1 then -(digitsVal marked.1 ds : Int)
          else digitsVal marked.1 ds)

/-- JavaScript `parseInt(s)`; `none` models `NaN`. -/
def jsParseInt (s : String) : Option Int := parseIntCore s.data

/-- One character of a JSON string literal, escaped as ECMAScript
`JSON.stringify` escapes it. -/
def jsonEscapeChar (c : Char) : String :=
  if c = '"' then "\\\""
  else if c = '\\' then "\\\\"
  else if c = '\x08' then "\\b"
  else if c = '\x0c' then "\\f"
  else if c = '\n' then "\\n"
  else if c = '\r' then "\\r"
  else if c = '\t' then "\\t"
  else if c.toNat < 32 then
    "\\u00" ++ ⟨[hexLowerChar (c.toNat / 16), hexLowerChar (c.toNat % 16)]⟩
  else String.singleton c
where
  hexLowerChar (d : Nat) : Char :=
    if d < 10 then digitChar d else Char.ofNat (87 + d)

/-- A JSON string literal with quotes and escapes, as `JSON.stringify`
renders a string. -/
def jsonQuote (s : String) : String :=
  "\"" ++ String.join (s.data.map jsonEscapeChar) ++ "\""

mutual

/-- ECMAScript `JSON.stringify(value, undefined, 2)` at nesting level
`indent` (the accumulated indentation of the enclosing value): 2-space gap,
`",\n"` separators, `": "` after keys, object fields in insertion order. -/
def jsonStringify (indent : String) : Json → String
  | .null => "null"
  | .bool b => cond b "true" "false"
  | .num n => jsNumToString n
  | .str s => jsonQuote s
  | .arr [] => "[]"
  | .arr (x :: xs) =>
    let inner := indent ++ "  "
    "[\n" ++ inner ++
      String.intercalate (",\n" ++ inner) (jsonStringifyElems inner (x :: xs)) ++
      "\n" ++ indent ++ "]"
  | .obj [] => "\x7b\x7d"
  | .obj (f :: fs) =>
    let inner := indent ++ "  "
    "\x7b\n" ++ inner ++
      String.intercalate (",\n" ++ inner) (jsonStringifyFields inner (f :: fs)) ++
      "\n" ++ indent ++ "\x7d"

/-- The serialized elements of a JSON array, in order. -/
def jsonStringifyElems (indent : String) : List Json → List String
  | [] => []
  | x :: xs => jsonStringify indent x :: jsonStringifyElems indent xs

/-- The serialized `"key": value` entries of a JSON object, in order. -/
def jsonStringifyFields (indent : String) : List (String × Json) → List String
  | [] => []
  | (k, v) :: fs =>
    (jsonQuote k ++ ": " ++ jsonStringify indent v) :: jsonStringifyFields indent fs

end

/-- `JSON.stringify(data, undefined, 2)` as called in `verifySignature`
(`src/auth.ts` line 93). -/
def jsonStringifyIndent2 (j : Json) : String := jsonStringify "" j

mutual

/-- ECMAScript `ToString` on a parsed-JSON value; the Workers runtime
applies it to non-string arguments of `KVNamespace.get`/`put`.  Every
theorem below instantiates the public key with a string, where `ToString`
is the identity. -/
def jsToString : Json → String
  | .null => "null"
  | .bool b => cond b "true" "false"
  | .num n => jsNumToString n
  | .str s => s
  | .arr xs => String.intercalate "," (jsToStringElems xs)
  | .obj _ => "[object Object]"

/-- `Array.prototype.join` element conversion: `null` becomes the empty
string. -/
def jsToStringElems : List Json → List String
  | [] => []
  | .null :: xs => "" :: jsToStringElems xs
  | x :: xs => jsToString x :: jsToStringElems xs

end

/-- An HTTP response, reduced to the status code and JSON body the worker
produces. -/
structure HttpResponse where
  status : Nat
  body : Json

/-- Modelled from the spec: `respond` from the repository's `./utils`
module (absent from the sources) builds a JSON response with the given
status and body. -/
def respond (status : Nat) (body : Json) : HttpResponse := ⟨status, body⟩

/-- Modelled from the spec: `respondError` from the repository's `./utils`
module (absent from the sources) builds a JSON error response carrying the
given message. -/
def respondError (status : Nat) (error : String) : HttpResponse :=
  ⟨status, Json.obj [("error", Json.str error)]⟩

/-- The worker environment (`src/types.ts`): the `NONCES` KV namespace,
modelled as a partial map from string keys to string values. -/
structure Env where
  NONCES : String → Option String

/-- `getNonce` (`src/auth.ts` lines 60-67): read the stored string for
`publicKey`; a missing or empty value is falsy and yields 0, otherwise the
value goes through `parseInt` and `NaN` is mapped to 0. -/
def getNonce (env : Env) (publicKey : String) : Int :=
  match env.NONCES publicKey with
  | none => 0
  | some nonce =>
    if nonce = "" then 0
    else
      match jsParseInt nonce with
      | none => 0
      | some nonceValue => nonceValue

/-- `setNonce` (`src/auth.ts` lines 70-74): `NONCES.put(publicKey,
nonce.toString())`. -/
def setNonce (env : Env) (publicKey : String) (nonce : Int) : Env :=
  ⟨fun k => if k = publicKey then some (jsNumToString nonce) else env.NONCES k⟩

/-- Observable effects of one request, in program order: KV reads and
writes, the outcome of signature verification, and the protected handler
running. -/
inductive Event where
  | kvGet (key : String)
  | kvPut (key : String) (value : String)
  | sigVerified (ok : Bool)
  | handlerRun
deriving DecidableEq

/-- Whether an event is a KV write. -/
def Event.isKvPut : Event → Bool
  | .kvPut _ _ => true
  | _ => false

/-- The `value` of the single amino message the worker builds: the derived
signer address and the pretty-printed `data` object. -/
structure MsgValue where
  signer : String
  data : String
deriving DecidableEq

/-- One amino message.  Its `type` is `data.auth.type` passed through
unvalidated, hence an arbitrary JSON value. -/
structure AminoMsg where
  type : Json
  value : MsgValue

/-- One fee coin; `denom` is `data.auth.chainFeeDenom` passed through
unvalidated. -/
structure Coin where
  denom : Json
  amount : String

/-- The standard fee of an amino sign document. -/
structure StdFee where
  amount : List Coin
  gas : String

/-- An amino sign document as assembled by `@cosmjs/amino` `makeSignDoc`;
`chain_id` is `data.auth.chainId` passed through unvalidated. -/
structure StdSignDoc where
  chain_id : Json
  account_number : String
  sequence : String
  fee : StdFee
  msgs : List AminoMsg
  memo : String

/-- `@cosmjs/amino` `makeSignDoc`: collects the pieces and renders the
account and sequence numbers as decimal strings. -/
def makeSignDoc (msgs : List AminoMsg) (fee : StdFee) (chainId : Json)
    (memo : String) (accountNumber sequence : Int) : StdSignDoc :=
  { chain_id := chainId
    account_number := jsNumToString accountNumber
    sequence := jsNumToString sequence
    fee := fee
    msgs := msgs
    memo := memo }

/-- Oracle bundle for the cryptographic primitives the worker imports:
`deriveAddress` models `secp256k1PublicKeyToBech32Address` and `verify`
models `verifySecp256k1Signature`, both from the repository's `./crypto`
module (absent from the sources; per the spec they may throw on malformed
input, modelled by `none`); `serializeSignDoc` models the `@cosmjs/amino`
canonical sign-document serialization to bytes, which is total. -/
structure Crypto where
  deriveAddress : Json → Json → Option String
  serializeSignDoc : StdSignDoc → List Nat
  verify : Json → List Nat → Json → Option Bool

/-- Field access `j.key` with JavaScript `undefined` collapsed to JSON
null (the distinction never matters below: theorems only inspect fields
whose presence the structural check guarantees). -/
def jGetD (j : Json) (key : String) : Json := (j.get key).getD Json.null

/-- `body.data` as accessed throughout `src/auth.ts`. -/
def bodyData (body : Json) : Json := jGetD body "data"

/-- `body.data.auth.<key>` as accessed throughout `src/auth.ts`. -/
def authClaim (body : Json) (key : String) : Json :=
  jGetD (jGetD (bodyData body) "auth") key

/-- `body.signature` as accessed in `src/auth.ts`. -/
def bodySignature (body : Json) : Json := jGetD body "signature"

/-- The sign document `verifySignature` assembles (`src/auth.ts` lines
86-111): one message typed `data.auth.type` whose value carries the derived
signer address and `JSON.stringify(data, undefined, 2)`, a zero fee in
`data.auth.chainFeeDenom`, the chain id `data.auth.chainId`, empty memo,
and account and sequence numbers 0. -/
def authSignDoc (body : Json) (signer : String) : StdSignDoc :=
  makeSignDoc
    [{ type := authClaim body "type"
       value := { signer := signer
                  data := jsonStringifyIndent2 (bodyData body) } }]
    { gas := "0"
      amount := [{ denom := authClaim body "chainFeeDenom", amount := "0" }] }
    (authClaim body "chainId") "" 0 0

/-- `verifySignature` (`src/auth.ts` lines 77-122): derive the bech32
address of the claimed public key, build the amino sign document, serialize
it, and check the signature; any exception along the way (an oracle
returning `none`) is caught and yields `false`. -/
def verifySignature (C : Crypto) (body : Json) : Bool :=
  match C.deriveAddress (authClaim body "publicKey")
      (authClaim body "chainBech32Prefix") with
  | none => false
  | some signer =>
    match C.verify (authClaim body "publicKey")
        (C.serializeSignDoc (authSignDoc body signer))
        (bodySignature body) with
    | none => false
    | some ok => ok

/-- Modelled from the spec: `objectMatchesStructure` from the repository's
`./utils` module (absent from the sources), applied to the template
`authMiddleware` passes it (`src/auth.ts` lines 160-172).  Per the spec it
is a duck-typed required-field presence check: the body must carry
`data.auth.type`, `data.auth.nonce`, `data.auth.chainId`,
`data.auth.chainFeeDenom`, `data.auth.chainBech32Prefix`,
`data.auth.publicKey` and a top-level `signature`; the values found are
not type-checked. -/
def matchesAuthStructure (body : Json) : Bool :=
  (match body.get "data" with
   | some data =>
     (match data.get "auth" with
      | some auth =>
        (auth.get "type").isSome && (auth.get "nonce").isSome &&
        (auth.get "chainId").isSome && (auth.get "chainFeeDenom").isSome &&
        (auth.get "chainBech32Prefix").isSome && (auth.get "publicKey").isSome
      | none => false)
   | none => false) &&
  (body.get "signature").isSome

/-- JavaScript strict equality `===` between a number (the stored nonce)
and an arbitrary JSON value (the claimed nonce): true exactly when the
value is the same number. -/
def jsStrictEqNum (n : Int) (j : Json) : Bool :=
  match j with
  | .num m => n = m
  | _ => false

/-- The string key handed to `NONCES.get`/`NONCES.put`: the runtime
coerces a non-string `body.data.auth.publicKey` with `ToString`. -/
def noncePublicKey (body : Json) : String :=
  jsToString (authClaim body "publicKey")

/-- `validateBodyAndIncrementNonceOrThrowResponse` (`src/auth.ts` lines
125-145): fetch the stored nonce, reject 401 on strict inequality with the
claimed nonce, reject 401 on signature failure, otherwise store the
incremented nonce.  The `Except` error is the thrown `Response`; the event
list records the KV traffic and the verification outcome in program
order. -/
def validateBodyAndIncrementNonceOrThrowResponse (C : Crypto) (env : Env)
    (body : Json) : Except HttpResponse Env × List Event :=
  let pk := noncePublicKey body
  let nonce := getNonce env pk
  if jsStrictEqNum nonce (authClaim body "nonce") then
    if verifySignature C body then
      (.ok (setNonce env pk (nonce + 1)),
       [.kvGet pk, .sigVerified true, .kvPut pk (jsNumToString (nonce + 1))])
    else
      (.error (respondError 401 "Unauthorized. Invalid signature."),
       [.kvGet pk, .sigVerified false])
  else
    (.error (respondError 401 "Unauthorized. Invalid nonce."), [.kvGet pk])

/-- Outcome of `authMiddleware`: an early `Response`, or fall-through with
`request.parsedBody` set. -/
inductive AuthOutcome where
  | rejected (response : HttpResponse)
  | authorized (parsedBody : Json)

/-- Whether the middleware fell through to the handler. -/
def AuthOutcome.isAuthorized : AuthOutcome → Bool
  | .authorized _ => true
  | _ => false

/-- `authMiddleware` (`src/auth.ts` lines 151-190): parse the body, reject
400 when it fails the structural check, otherwise run the nonce and
signature validation, catching a thrown `Response`.  Returns the outcome,
the environment after the call, and the events in program order. -/
def authMiddleware (C : Crypto) (env : Env) (body : Json) :
    AuthOutcome × Env × List Event :=
  if matchesAuthStructure body then
    match validateBodyAndIncrementNonceOrThrowResponse C env body with
    | (.error r, events) => (.rejected r, env, events)
    | (.ok env', events) => (.authorized body, env', events)
  else
    (.rejected (respondError 400 "Invalid body"), env, [])

/-- `handlePing` (`src/routes/ping.ts`). -/
def handlePing : HttpResponse := respond 200 (Json.obj [("pong", Json.bool true)])

/-- The protected route `POST /ping` (`src/index.ts` line 30): the auth
middleware runs first and its response, if any, short-circuits the
handler; otherwise the handler runs. -/
def handleProtectedPing (C : Crypto) (env : Env) (body : Json) :
    HttpResponse × Env × List Event :=
  match authMiddleware C env body with
  | (.rejected r, env', events) => (r, env', events)
  | (.authorized _, env', events) => (handlePing, env', events ++ [.handlerRun])

/-- `handleNonce` (`src/routes/nonce.ts`): 400 when the `publicKey` path
parameter is falsy (absent or empty), otherwise 200 with the stored
nonce. -/
def handleNonce (env : Env) (publicKey : Option String) :
    HttpResponse × List Event :=
  match publicKey with
  | none => (respondError 400 "Missing publicKey", [])
  | some pk =>
    if pk = "" then (respondError 400 "Missing publicKey", [])
    else (respond 200 (Json.obj [("nonce", Json.num (getNonce env pk))]),
          [.kvGet pk])

/-- An oracle bundle whose address derivation succeeds and whose signature
verification accepts, for concrete evaluations. -/
def acceptingCrypto : Crypto :=
  ⟨fun _ _ => some "signer", fun _ => [], fun _ _ _ => some true⟩

/-- An oracle bundle whose signature verification returns false. -/
def rejectingCrypto : Crypto :=
  ⟨fun _ _ => some "signer", fun _ => [], fun _ _ _ => some false⟩

/-- An oracle bundle whose address derivation throws. -/
def throwingDeriveCrypto : Crypto :=
  ⟨fun _ _ => none, fun _ => [], fun _ _ _ => some true⟩

/-- An oracle bundle whose signature verification throws. -/
def throwingVerifyCrypto : Crypto :=
  ⟨fun _ _ => some "signer", fun _ => [], fun _ _ _ => none⟩

/-- A store with no entries. -/
def emptyEnv : Env := ⟨fun _ => none⟩

/-- A store whose entry for `"abc"` is the string `"-5"`. -/
def negativeStoreEnv : Env :=
  ⟨fun k => if k = "abc" then some "-5" else none⟩

/-- A structurally valid request body for public key `"abc"` claiming the
given nonce value. -/
def sampleBody (nonce : Json) : Json :=
  .obj [("data", .obj [("auth", .obj
           [("type", .str "sign"), ("nonce", nonce),
            ("chainId", .str "chain-1"), ("chainFeeDenom", .str "udenom"),
            ("chainBech32Prefix", .str "pre"),
            ("publicKey", .str "abc")])]),
        ("signature", .str "sig")]

/-- A request body like `sampleBody` but with `data.auth.publicKey`
missing. -/
def missingKeyBody : Json :=
  .obj [("data", .obj [("auth", .obj
           [("type", .str "sign"), ("nonce", .num 0),
            ("chainId", .str "chain-1"), ("chainFeeDenom", .str "udenom"),
            ("chainBech32Prefix", .str "pre")])]),
        ("signature", .str "sig")]

/-! Helper lemmas: `parseInt` recovers the decimal output of `toString`. -/

theorem digitChar_facts : ∀ d : Nat, d < 10 →
    isJsWhitespace (digitChar d) = false ∧ digitChar d ≠ '-' ∧
    digitChar d ≠ '+' ∧ digitChar d ≠ 'x' ∧ digitChar d ≠ 'X' ∧
    digitValue? 10 (digitChar d) = some d := by decide

theorem natDigitsGo_ne_nil (fuel n : Nat) (h : n < fuel) :
    natDigitsGo fuel n ≠ [] := by
  cases fuel with
  | zero => omega
  | succ fuel =>
    rw [natDigitsGo]
    split <;> simp

theorem natDigitsN_ne_nil (n : Nat) : natDigitsN n ≠ [] :=
  natDigitsGo_ne_nil (n + 1) n (by omega)

theorem natDigitsGo_lt_ten (fuel : Nat) :
    ∀ n, n < fuel → ∀ d ∈ natDigitsGo fuel n, d < 10 := by
  induction fuel with
  | zero => omega
  | succ fuel ih =>
    intro n hn d hd
    rw [natDigitsGo] at hd
    by_cases hsmall : n < 10
    · rw [if_pos hsmall] at hd
      simp only [List.mem_singleton] at hd
      omega
    · rw [if_neg hsmall] at hd
      rcases List.mem_append.1 hd with h' | h'
      · exact ih (n / 10) (by omega) d h'
      · simp only [List.mem_singleton] at h'
        subst h'
        exact Nat.mod_lt _ (by omega)

theorem natDigitsN_lt_ten (n : Nat) : ∀ d ∈ natDigitsN n, d < 10 :=
  natDigitsGo_lt_ten (n + 1) n (by omega)

theorem digitsVal_append_singleton (radix : Nat) (xs : List Nat) (d : Nat) :
    digitsVal radix (xs ++ [d]) = digitsVal radix xs * radix + d := by
  simp [digitsVal, List.foldl_append]

theorem digitsVal_natDigitsGo (fuel : Nat) :
    ∀ n, n < fuel → digitsVal 10 (natDigitsGo fuel n) = n := by
  induction fuel with
  | zero => omega
  | succ fuel ih =>
    intro n hn
    rw [natDigitsGo]
    by_cases hsmall : n < 10
    · rw [if_pos hsmall]
      simp [digitsVal]
    · rw [if_neg hsmall, digitsVal_append_singleton, ih (n / 10) (by omega)]
      omega

theorem digitsVal_natDigitsN (n : Nat) : digitsVal 10 (natDigitsN n) = n :=
  digitsVal_natDigitsGo (n + 1) n (by omega)

theorem takeDigits_map_digitChar (ds : List Nat) (h : ∀ d ∈ ds, d < 10) :
    takeDigits 10 (ds.map digitChar) = ds := by
  induction ds with
  | nil => simp [takeDigits]
  | cons d rest ih =>
    have hd := (digitChar_facts d (h d (by simp))).2.2.2.2.2
    have hr : ∀ x ∈ rest, x < 10 := fun x hx => h x (by simp [hx])
    have ihr := ih hr
    simp only [takeDigits, List.map_cons, List.takeWhile_cons, hd,
      Option.isSome_some, if_true, List.filterMap_cons] at ihr ⊢
    rw [ihr]

theorem stripSign_of_head_digit (d : Nat) (l : List Char) (h : d < 10) :
    stripSign (digitChar d :: l) = (false, digitChar d :: l) := by
  have f := digitChar_facts d h
  simp [stripSign, f.2.1, f.2.2.1]

theorem stripHexMark_of_digits (ds : List Nat) (h : ∀ d ∈ ds, d < 10) :
    stripHexMark (ds.map digitChar) = (10, ds.map digitChar) := by
  match ds with
  | [] => rfl
  | [d] => rfl
  | d0 :: d1 :: rest =>
    have f := digitChar_facts d1 (h d1 (by simp))
    simp [stripHexMark, f.2.2.2.1, f.2.2.2.2.1]

theorem parseIntCore_map_digitChar (ds : List Nat) (h : ∀ d ∈ ds, d < 10)
    (hne : ds ≠ []) :
    parseIntCore (ds.map digitChar) = some ((digitsVal 10 ds : Nat) : Int) := by
  obtain ⟨d, rest, rfl⟩ : ∃ d rest, ds = d :: rest := by
    cases ds with
    | nil => exact absurd rfl hne
    | cons d rest => exact ⟨d, rest, rfl⟩
  have f := digitChar_facts d (h d (by simp))
  have h1 : ((d :: rest).map digitChar).dropWhile isJsWhitespace
      = (d :: rest).map digitChar := by
    simp [List.dropWhile_cons, f.1]
  have h2 : stripSign ((d :: rest).map digitChar)
      = (false, (d :: rest).map digitChar) := by
    simpa using stripSign_of_head_digit d (rest.map digitChar) (h d (by simp))
  unfold parseIntCore
  simp only [h1, h2, stripHexMark_of_digits _ h, takeDigits_map_digitChar _ h]
  simp

theorem parseIntCore_neg_map_digitChar (ds : List Nat) (h : ∀ d ∈ ds, d < 10)
    (hne : ds ≠ []) :
    parseIntCore ('-' :: ds.map digitChar)
      = some (-((digitsVal 10 ds : Nat) : Int)) := by
  obtain ⟨d, rest, rfl⟩ : ∃ d rest, ds = d :: rest := by
    cases ds with
    | nil => exact absurd rfl hne
    | cons d rest => exact ⟨d, rest, rfl⟩
  have h1 : ('-' :: (d :: rest).map digitChar).dropWhile isJsWhitespace
      = '-' :: (d :: rest).map digitChar := by
    simp [List.dropWhile_cons, show isJsWhitespace '-' = false from by decide]
  have h2 : stripSign ('-' :: (d :: rest).map digitChar)
      = (true, (d :: rest).map digitChar) := by
    simp [stripSign]
  unfold parseIntCore
  simp only [h1, h2, stripHexMark_of_digits _ h, takeDigits_map_digitChar _ h]
  simp

theorem jsParseInt_jsNumToString (i : Int) :
    jsParseInt (jsNumToString i) = some i := by
  unfold jsParseInt jsNumToString natToDecimal
  by_cases hneg : i < 0
  · simp only [hneg, if_true]
    have hdata : ("-" ++ (⟨(natDigitsN i.natAbs).map digitChar⟩ : String)).data
        = '-' :: (natDigitsN i.natAbs).map digitChar := rfl
    rw [hdata, parseIntCore_neg_map_digitChar _ (natDigitsN_lt_ten _)
      (natDigitsN_ne_nil _), digitsVal_natDigitsN]
    congr 1
    omega
  · simp only [hneg, if_false]
    rw [parseIntCore_map_digitChar _ (natDigitsN_lt_ten _) (natDigitsN_ne_nil _),
      digitsVal_natDigitsN]
    congr 1
    omega

theorem jsNumToString_ne_empty (i : Int) : jsNumToString i ≠ "" := by
  unfold jsNumToString natToDecimal
  intro hcontra
  have hdata := congrArg String.data hcontra
  by_cases hneg : i < 0 <;>
    simp [hneg, natDigitsN_ne_nil] at hdata

theorem getNonce_setNonce (env : Env) (pk : String) (i : Int) :
    getNonce (setNonce env pk i) pk = i := by
  unfold getNonce setNonce
  simp [jsNumToString_ne_empty, jsParseInt_jsNumToString]

theorem noncePublicKey_str (body : Json) (pk : String)
    (h : authClaim body "publicKey" = Json.str pk) :
    noncePublicKey body = pk := by
  unfold noncePublicKey
  rw [h]
  simp [jsToString]

theorem jsStrictEqNum_true {n : Int} {j : Json}
    (h : jsStrictEqNum n j = true) : j = .num n := by
  cases j <;> simp [jsStrictEqNum] at h ⊢
  omega

theorem jsStrictEqNum_not_num (n : Int) (j : Json) (h : j.isNum = false) :
    jsStrictEqNum n j = false := by
  cases j <;> simp_all [jsStrictEqNum, Json.isNum]

/-- C1: whenever the auth gate authorizes a request (over any crypto
oracles, store state, and body claiming a string public key), the stored
nonce for that key after the call is the stored nonce before the call plus
one, and the event trace shows the single KV write happening after
signature verification succeeds and before the protected handler runs. -/
theorem authGate_increments_nonce_exactly_once (C : Crypto) (env : Env)
    (body : Json) (pk : String)
    (hpk : authClaim body "publicKey" = Json.str pk)
    (resp : HttpResponse) (env' : Env) (events : List Event)
    (hrun : handleProtectedPing C env body = (resp, env', events))
    (hauth : (authMiddleware C env body).1.isAuthorized = true) :
    getNonce env' pk = getNonce env pk + 1 ∧
    events = [.kvGet pk, .sigVerified true,
              .kvPut pk (jsNumToString (getNonce env pk + 1)), .handlerRun] := by
  have hkey := noncePublicKey_str body pk hpk
  unfold handleProtectedPing at hrun
  unfold authMiddleware validateBodyAndIncrementNonceOrThrowResponse at hrun hauth
  rw [hkey] at hrun hauth
  by_cases hs : matchesAuthStructure body = true
  case neg => simp [hs, AuthOutcome.isAuthorized] at hauth
  by_cases hn : jsStrictEqNum (getNonce env pk) (authClaim body "nonce") = true
  case neg => simp [hs, hn, AuthOutcome.isAuthorized] at hauth
  by_cases hv : verifySignature C body = true
  case neg => simp [hs, hn, hv, AuthOutcome.isAuthorized] at hauth
  simp only [hs, hn, hv, if_true] at hrun
  simp only [Prod.mk.injEq, List.cons_append, List.nil_append] at hrun
  obtain ⟨h1, h2, h3⟩ := hrun
  subst h2
  subst h3
  exact ⟨getNonce_setNonce env pk _, rfl⟩

/-- C2: a request body the auth gate has just authorized, replayed
byte-identically against the resulting store with no intervening nonce
changes, is rejected with 401 "Unauthorized. Invalid nonce." — a nonce
mismatch, never a signature failure. -/
theorem authGate_replay_rejected_as_nonce_mismatch (C : Crypto) (env : Env)
    (body : Json) (pk : String) (b : Json) (env' : Env) (events : List Event)
    (hpk : authClaim body "publicKey" = Json.str pk)
    (hfirst : authMiddleware C env body = (.authorized b, env', events)) :
    (authMiddleware C env' body).1 =
      .rejected (respondError 401 "Unauthorized. Invalid nonce.") := by
  have hkey := noncePublicKey_str body pk hpk
  unfold authMiddleware validateBodyAndIncrementNonceOrThrowResponse at hfirst ⊢
  rw [hkey] at hfirst ⊢
  by_cases hs : matchesAuthStructure body = true
  case neg => simp [hs] at hfirst
  by_cases hn : jsStrictEqNum (getNonce env pk) (authClaim body "nonce") = true
  case neg => simp [hs, hn] at hfirst
  by_cases hv : verifySignature C body = true
  case neg => simp [hs, hn, hv] at hfirst
  simp only [hs, hn, hv, if_true, Prod.mk.injEq] at hfirst
  obtain ⟨hb, henv, hev⟩ := hfirst
  subst henv
  have hnonce := jsStrictEqNum_true hn
  have hne : jsStrictEqNum (getNonce (setNonce env pk (getNonce env pk + 1)) pk)
      (authClaim body "nonce") = false := by
    rw [hnonce, getNonce_setNonce]
    simp [jsStrictEqNum]
  simp [hs, hne]

/-- C3: for every structurally valid request whose claimed nonce is not
strictly equal to the stored nonce, the auth gate rejects with 401
"Unauthorized. Invalid nonce.", the store is unchanged, and the event
trace is the single KV read — signature verification never runs. -/
theorem authGate_nonce_mismatch_rejects_before_signature (C : Crypto)
    (env : Env) (body : Json) (pk : String)
    (hpk : authClaim body "publicKey" = Json.str pk)
    (hs : matchesAuthStructure body = true)
    (hn : jsStrictEqNum (getNonce env pk) (authClaim body "nonce") = false) :
    authMiddleware C env body =
      (.rejected (respondError 401 "Unauthorized. Invalid nonce."), env,
       [.kvGet pk]) := by
  have hkey := noncePublicKey_str body pk hpk
  unfold authMiddleware validateBodyAndIncrementNonceOrThrowResponse
  rw [hkey]
  simp [hs, hn]

/-- C8: on every rejection path of the auth gate the resulting store is
the original store and the event trace contains no KV write. -/
theorem authGate_failure_atomicity (C : Crypto) (env : Env) (body : Json)
    (r : HttpResponse) (env' : Env) (events : List Event)
    (h : authMiddleware C env body = (.rejected r, env', events)) :
    env' = env ∧ ∀ e ∈ events, Event.isKvPut e = false := by
  unfold authMiddleware validateBodyAndIncrementNonceOrThrowResponse at h
  by_cases hs : matchesAuthStructure body = true
  · by_cases hn : jsStrictEqNum (getNonce env (noncePublicKey body))
        (authClaim body "nonce") = true
    · by_cases hv : verifySignature C body = true
      · simp [hs, hn, hv] at h
      · simp only [hs, hn, hv, if_true, Bool.false_eq_true, if_false,
          Prod.mk.injEq, AuthOutcome.rejected.injEq] at h
        obtain ⟨-, henv, hev⟩ := h
        subst henv
        subst hev
        simp [Event.isKvPut]
    · simp only [hs, hn, if_true, Bool.false_eq_true, if_false,
        Prod.mk.injEq, AuthOutcome.rejected.injEq] at h
      obtain ⟨-, henv, hev⟩ := h
      subst henv
      subst hev
      simp [Event.isKvPut]
  · simp only [hs, Bool.false_eq_true, if_false, Prod.mk.injEq,
      AuthOutcome.rejected.injEq] at h
    obtain ⟨-, henv, hev⟩ := h
    subst henv
    subst hev
    simp

/-- C10: the structural check is presence-only, so a structurally valid
body whose `data.auth.nonce` is present but not a number is rejected by
the strict nonce comparison with 401 "Unauthorized. Invalid nonce." — never
with 400. -/
theorem authGate_nonnumeric_nonce_rejected_401 (C : Crypto) (env : Env)
    (body : Json)
    (hs : matchesAuthStructure body = true)
    (hnn : (authClaim body "nonce").isNum = false) :
    (authMiddleware C env body).1 =
      .rejected (respondError 401 "Unauthorized. Invalid nonce.") := by
  unfold authMiddleware validateBodyAndIncrementNonceOrThrowResponse
  simp [hs, jsStrictEqNum_not_num _ _ hnn]

/-- Applies C1 at a concrete successful authorization over the empty store:
the stored nonce for `"abc"` goes from 0 to 1 and the trace shows one
write, after verification and before the handler. -/
theorem authGate_increments_nonce_exactly_once_witness :
    getNonce (handleProtectedPing acceptingCrypto emptyEnv
        (sampleBody (.num 0))).2.1 "abc" = getNonce emptyEnv "abc" + 1 ∧
    (handleProtectedPing acceptingCrypto emptyEnv (sampleBody (.num 0))).2.2
      = [.kvGet "abc", .sigVerified true,
         .kvPut "abc" (jsNumToString (getNonce emptyEnv "abc" + 1)),
         .handlerRun] :=
  authGate_increments_nonce_exactly_once acceptingCrypto emptyEnv
    (sampleBody (.num 0)) "abc" rfl
    (handleProtectedPing acceptingCrypto emptyEnv (sampleBody (.num 0))).1
    (handleProtectedPing acceptingCrypto emptyEnv (sampleBody (.num 0))).2.1
    (handleProtectedPing acceptingCrypto emptyEnv (sampleBody (.num 0))).2.2
    rfl rfl

/-- Applies C2 at a concrete authorized request replayed against the
resulting store: the replay is rejected as a nonce mismatch. -/
theorem authGate_replay_rejected_witness :
    (authMiddleware acceptingCrypto
        (authMiddleware acceptingCrypto emptyEnv (sampleBody (.num 0))).2.1
        (sampleBody (.num 0))).1
      = .rejected (respondError 401 "Unauthorized. Invalid nonce.") :=
  authGate_replay_rejected_as_nonce_mismatch acceptingCrypto emptyEnv
    (sampleBody (.num 0)) "abc" (sampleBody (.num 0))
    (authMiddleware acceptingCrypto emptyEnv (sampleBody (.num 0))).2.1
    (authMiddleware acceptingCrypto emptyEnv (sampleBody (.num 0))).2.2
    rfl rfl

/-- Applies C3 at a claimed nonce 5 against an empty store (stored nonce
0): 401 nonce rejection with only a read in the trace. -/
theorem authGate_nonce_mismatch_witness :
    authMiddleware acceptingCrypto emptyEnv (sampleBody (.num 5))
      = (.rejected (respondError 401 "Unauthorized. Invalid nonce."),
         emptyEnv, [.kvGet "abc"]) :=
  authGate_nonce_mismatch_rejects_before_signature acceptingCrypto emptyEnv
    (sampleBody (.num 5)) "abc" rfl rfl (by decide)

/-- C4 fails on the code: a stored value `"-5"`, which is not parsable as a
non-negative integer, makes `getNonce` return -5, not the 0 the claim
requires (`parseInt("-5")` is -5 and not `NaN`, so the `NaN` guard does
not fire). -/
theorem getNonce_negative_store_counterexample :
    getNonce negativeStoreEnv "abc" = -5 ∧
    ¬ getNonce negativeStoreEnv "abc" = 0 := by decide

/-- C4 (amended): `getNonce` returns 0 when the stored value is absent or
when `parseInt` yields `NaN` on it, and otherwise returns exactly the
`parseInt` value of the stored string — including negative values. -/
theorem getNonce_parses_or_zero (env : Env) (publicKey : String) :
    (env.NONCES publicKey = none → getNonce env publicKey = 0) ∧
    (∀ s, env.NONCES publicKey = some s → jsParseInt s = none →
      getNonce env publicKey = 0) ∧
    (∀ s v, env.NONCES publicKey = some s → jsParseInt s = some v →
      getNonce env publicKey = v) := by
  refine ⟨?_, ?_, ?_⟩
  · intro h
    unfold getNonce
    rw [h]
  · intro s hs hp
    unfold getNonce
    rw [hs]
    by_cases he : s = ""
    · simp [he]
    · simp [he, hp]
  · intro s v hs hp
    unfold getNonce
    rw [hs]
    by_cases he : s = ""
    · subst he
      rw [show jsParseInt "" = none from rfl] at hp
      cases hp
    · simp [he, hp]

/-- Applies the amended C4 at concrete stores: an absent entry yields 0 and
the stored string `"-5"` yields -5. -/
theorem getNonce_parses_or_zero_witness :
    getNonce emptyEnv "k" = 0 ∧ getNonce negativeStoreEnv "abc" = -5 :=
  ⟨(getNonce_parses_or_zero emptyEnv "k").1 rfl,
   (getNonce_parses_or_zero negativeStoreEnv "abc").2.2 "-5" (-5) rfl
     (by decide)⟩

/-- C5: a request body that fails the structural check (a required auth
field or the signature missing) is rejected with 400 "Invalid body", the
store is untouched, and the event trace is empty — no storage access at
all. -/
theorem authGate_malformed_body_rejected_without_storage (C : Crypto)
    (env : Env) (body : Json)
    (hs : matchesAuthStructure body = false) :
    authMiddleware C env body
      = (.rejected (respondError 400 "Invalid body"), env, []) := by
  unfold authMiddleware
  simp [hs]

/-- Applies C5 at a body missing `data.auth.publicKey`: 400 with an empty
trace. -/
theorem authGate_malformed_body_witness :
    authMiddleware acceptingCrypto emptyEnv missingKeyBody
      = (.rejected (respondError 400 "Invalid body"), emptyEnv, []) :=
  authGate_malformed_body_rejected_without_storage acceptingCrypto emptyEnv
    missingKeyBody rfl

/-- C6: once address derivation yields a signer, the sign document passed
to the serializer has exactly one message, typed `data.auth.type`, whose
value is the signer address plus the 2-space pretty-printed `data` object;
fee is zero gas and one zero-amount coin in `data.auth.chainFeeDenom`;
chain id is `data.auth.chainId`; memo is empty; account and sequence
numbers are 0 — and the verifier receives its serialization. -/
theorem verifySignature_builds_canonical_message (C : Crypto) (body : Json)
    (signer : String)
    (hd : C.deriveAddress (authClaim body "publicKey")
      (authClaim body "chainBech32Prefix") = some signer) :
    authSignDoc body signer =
      { chain_id := authClaim body "chainId"
        account_number := "0"
        sequence := "0"
        fee := { amount := [{ denom := authClaim body "chainFeeDenom",
                              amount := "0" }]
                 gas := "0" }
        msgs := [{ type := authClaim body "type"
                   value := { signer := signer
                              data := jsonStringifyIndent2 (bodyData body) } }]
        memo := "" } ∧
    verifySignature C body =
      (match C.verify (authClaim body "publicKey")
          (C.serializeSignDoc (authSignDoc body signer))
          (bodySignature body) with
       | none => false
       | some ok => ok) := by
  constructor
  · rfl
  · unfold verifySignature
    rw [hd]

/-- Applies C6 at a concrete body and oracle bundle. -/
theorem verifySignature_builds_canonical_message_witness :
    authSignDoc (sampleBody (.num 0)) "signer" =
      { chain_id := authClaim (sampleBody (.num 0)) "chainId"
        account_number := "0"
        sequence := "0"
        fee := { amount := [{ denom := authClaim (sampleBody (.num 0))
                                "chainFeeDenom",
                              amount := "0" }]
                 gas := "0" }
        msgs := [{ type := authClaim (sampleBody (.num 0)) "type"
                   value := { signer := "signer"
                              data := jsonStringifyIndent2
                                (bodyData (sampleBody (.num 0))) } }]
        memo := "" } ∧
    verifySignature acceptingCrypto (sampleBody (.num 0)) =
      (match acceptingCrypto.verify (authClaim (sampleBody (.num 0)) "publicKey")
          (acceptingCrypto.serializeSignDoc
            (authSignDoc (sampleBody (.num 0)) "signer"))
          (bodySignature (sampleBody (.num 0))) with
       | none => false
       | some ok => ok) :=
  verifySignature_builds_canonical_message acceptingCrypto
    (sampleBody (.num 0)) "signer" rfl

/-- C7: `verifySignature` is total and never propagates an exception: when
address derivation throws it returns false, and when the verifier throws or
answers anything but an authentic-signature verdict it returns false. -/
theorem verifySignature_never_throws (C : Crypto) (body : Json) :
    (C.deriveAddress (authClaim body "publicKey")
        (authClaim body "chainBech32Prefix") = none →
      verifySignature C body = false) ∧
    (∀ signer, C.deriveAddress (authClaim body "publicKey")
        (authClaim body "chainBech32Prefix") = some signer →
      C.verify (authClaim body "publicKey")
          (C.serializeSignDoc (authSignDoc body signer))
          (bodySignature body) ≠ some true →
      verifySignature C body = false) := by
  constructor
  · intro h
    unfold verifySignature
    rw [h]
  · intro signer h hv
    unfold verifySignature
    rw [h]
    cases hres : C.verify (authClaim body "publicKey")
        (C.serializeSignDoc (authSignDoc body signer))
        (bodySignature body) with
    | none => simp [hres]
    | some b =>
      cases b with
      | true => exact absurd hres hv
      | false => simp [hres]

/-- Applies C7 at concrete oracle bundles that throw during derivation,
throw during verification, and reject the signature. -/
theorem verifySignature_never_throws_witness :
    verifySignature throwingDeriveCrypto (sampleBody (.num 0)) = false ∧
    verifySignature throwingVerifyCrypto (sampleBody (.num 0)) = false ∧
    verifySignature rejectingCrypto (sampleBody (.num 0)) = false :=
  ⟨(verifySignature_never_throws throwingDeriveCrypto
      (sampleBody (.num 0))).1 rfl,
   (verifySignature_never_throws throwingVerifyCrypto
      (sampleBody (.num 0))).2 "signer" rfl (fun h => Option.noConfusion h),
   (verifySignature_never_throws rejectingCrypto
      (sampleBody (.num 0))).2 "signer" rfl
     (fun h => by simp [rejectingCrypto] at h)⟩

/-- Applies C8 at a concrete nonce-mismatch rejection: store unchanged, no
write in the trace. -/
theorem authGate_failure_atomicity_witness :
    (authMiddleware acceptingCrypto emptyEnv (sampleBody (.num 5))).2.1
      = emptyEnv ∧
    ∀ e ∈ (authMiddleware acceptingCrypto emptyEnv (sampleBody (.num 5))).2.2,
      Event.isKvPut e = false :=
  authGate_failure_atomicity acceptingCrypto emptyEnv (sampleBody (.num 5))
    (respondError 401 "Unauthorized. Invalid nonce.")
    (authMiddleware acceptingCrypto emptyEnv (sampleBody (.num 5))).2.1
    (authMiddleware acceptingCrypto emptyEnv (sampleBody (.num 5))).2.2
    rfl

/-- C9: the nonce query endpoint answers 200 with exactly the `getNonce`
value for every non-empty `publicKey` path parameter, answers 400 when the
parameter is absent, and never writes to the store. -/
theorem handleNonce_returns_stored_nonce (env : Env) (pk : String) :
    (pk ≠ "" → handleNonce env (some pk)
      = (respond 200 (Json.obj [("nonce", Json.num (getNonce env pk))]),
         [.kvGet pk])) ∧
    handleNonce env none = (respondError 400 "Missing publicKey", []) ∧
    (∀ param, ∀ e ∈ (handleNonce env param).2, Event.isKvPut e = false) := by
  refine ⟨?_, rfl, ?_⟩
  · intro h
    unfold handleNonce
    simp [h]
  · intro param e he
    cases param with
    | none => simp [handleNonce] at he
    | some pk =>
      by_cases h : pk = ""
      · simp [handleNonce, h] at he
      · simp [handleNonce, h] at he
        subst he
        rfl

/-- Applies C9 at the empty store and the key `"abc"`. -/
theorem handleNonce_returns_stored_nonce_witness :
    handleNonce emptyEnv (some "abc")
      = (respond 200 (Json.obj [("nonce", Json.num (getNonce emptyEnv "abc"))]),
         [.kvGet "abc"]) :=
  (handleNonce_returns_stored_nonce emptyEnv "abc").1 (by decide)

/-- Applies C10 at a body whose claimed nonce is the string `"0"` over the
empty store: it passes the structural check and is rejected with the 401
nonce error, not 400. -/
theorem authGate_nonnumeric_nonce_witness :
    (authMiddleware acceptingCrypto emptyEnv (sampleBody (.str "0"))).1
      = .rejected (respondError 401 "Unauthorized. Invalid nonce.") :=
  authGate_nonnumeric_nonce_rejected_401 acceptingCrypto emptyEnv
    (sampleBody (.str "0")) rfl rfl
